import Mathlib

/-!
Shallow embedding of `src/verify_grid_controls.py`.

The script drives a browser through a fixed interaction sequence.  Every
observable call into the automation layer (and every `print`) becomes an
`Event`; an `Env` fixes, for each fallible call, whether it succeeds or
raises an exception (carried as a message string) and which image bytes each
screenshot would capture.  `verify_grid_controls` replays the Python control
flow (the `with` block, the `try`/`except`/`finally`) over an `Env` and
returns the ordered call trace, the artifact files successfully written, and
whether the run returned normally or propagated an exception.
-/

namespace VerifyGridControls

/-- Fixed target address the script navigates to (source line 11). -/
def appUrl : String := "http://localhost:5173"

/-- Selector of the grid-selector trigger element (source line 16). -/
def triggerSel : String := "[data-testid=\"grid-selector-trigger\"]"

/-- Selector of the grid-selector popover element (source line 28). -/
def popoverSel : String := "[data-testid=\"grid-selector-popover\"]"

/-- Selector of the hovered grid cell (source line 33). -/
def cellSel : String := "[data-testid=\"grid-cell-2-2\"]"

/-- Output path of the initial-state capture (source line 21). -/
def initialPath : String := "verification_initial.png"

/-- Output path of the open/hover-state capture (source line 38). -/
def openPath : String := "verification_open.png"

/-- Output path of the diagnostic error capture (source line 44). -/
def errorPath : String := "verification_error.png"

/-- Milliseconds per time unit: the source passes timeouts in milliseconds,
the specification counts them in seconds. -/
def msPerUnit : Nat := 1000

/-- One observable call the script makes into the automation layer or to
standard output.  Each automation call that accepts a timeout records the
timeout argument it was given; `none` means the call carried no explicit
timeout override. -/
inductive Event where
  | print (msg : String)
  | launch
  | newPage
  | goto (url : String) (timeout : Option Nat)
  | locator (sel : String)
  | waitVisible (sel : String) (timeout : Option Nat)
  | screenshot (path : String) (timeout : Option Nat)
  | click (sel : String) (timeout : Option Nat)
  | hover (sel : String) (timeout : Option Nat)
  | close
  deriving DecidableEq

/-- Behaviour of the external world during one run: for each fallible
automation call, `none` means the call succeeds and `some e` means it raises
an exception whose message is `e`.  The three content fields are the image
bytes the browser would capture at each screenshot point. -/
structure Env where
  launch : Option String
  newPage : Option String
  goto : Option String
  triggerWait : Option String
  screenshotInitial : Option String
  click : Option String
  popoverWait : Option String
  hover : Option String
  screenshotOpen : Option String
  screenshotError : Option String
  contentInitial : String
  contentOpen : String
  contentError : String

/-- Observable outcome of one run: the calls made, in order; the artifact
files successfully written, in order (path and contents); and whether the
run returned normally or propagated an exception. -/
structure RunOut where
  trace : List Event
  writes : List (String × String)
  result : Except String Unit

/-- Source lines 8-41: the body of the `try` block.  Returns the calls made,
the artifacts written, and `some e` when some call raised `e` (`none` when
the body ran to completion).  A screenshot call that raises writes no
artifact. -/
def tryBody (env : Env) : List Event × List (String × String) × Option String :=
  let t1 : List Event := [Event.print "Navigating to app...", Event.goto appUrl none]
  match env.goto with
  | some e => (t1, [], some e)
  | none =>
    let t2 := t1 ++ [Event.print "Waiting for grid controls...",
      Event.locator triggerSel, Event.waitVisible triggerSel (some (10 * msPerUnit))]
    match env.triggerWait with
    | some e => (t2, [], some e)
    | none =>
      let t3 := t2 ++ [Event.print "Taking initial screenshot...",
        Event.screenshot initialPath none]
      match env.screenshotInitial with
      | some e => (t3, [], some e)
      | none =>
        let w3 := [(initialPath, env.contentInitial)]
        let t4 := t3 ++ [Event.print "Opening grid selector...",
          Event.click triggerSel none]
        match env.click with
        | some e => (t4, w3, some e)
        | none =>
          let t5 := t4 ++ [Event.locator popoverSel,
            Event.waitVisible popoverSel (some (2 * msPerUnit))]
          match env.popoverWait with
          | some e => (t5, w3, some e)
          | none =>
            let t6 := t5 ++ [Event.print "Hovering over cell 2x2...",
              Event.locator cellSel, Event.hover cellSel none]
            match env.hover with
            | some e => (t6, w3, some e)
            | none =>
              let t7 := t6 ++ [Event.print "Taking open state screenshot...",
                Event.screenshot openPath none]
              match env.screenshotOpen with
              | some e => (t7, w3, some e)
              | none =>
                (t7 ++ [Event.print "Verification script completed successfully."],
                  w3 ++ [(openPath, env.contentOpen)], none)

/-- The whole of `verify_grid_controls` (source lines 3-47).  Browser launch
and page creation run before the `try` statement, so their exceptions skip
the `except` clause and the `finally` clause alike.  The `except` clause
prints the error message, captures the diagnostic screenshot (whose own
exception, if any, replaces the one being handled) and re-raises; the
`finally` clause closes the browser on every exit from the `try` statement. -/
def verify_grid_controls (env : Env) : RunOut :=
  match env.launch with
  | some e => ⟨[Event.launch], [], Except.error e⟩
  | none =>
    match env.newPage with
    | some e => ⟨[Event.launch, Event.newPage], [], Except.error e⟩
    | none =>
      let body := tryBody env
      match body.2.2 with
      | none =>
        ⟨[Event.launch, Event.newPage] ++ body.1 ++ [Event.close],
          body.2.1, Except.ok ()⟩
      | some e =>
        let tE := [Event.launch, Event.newPage] ++ body.1 ++
          [Event.print ("Error during verification: " ++ e),
            Event.screenshot errorPath none]
        match env.screenshotError with
        | some e2 => ⟨tE ++ [Event.close], body.2.1, Except.error e2⟩
        | none =>
          ⟨tE ++ [Event.close], body.2.1 ++ [(errorPath, env.contentError)],
            Except.error e⟩

/-- Paths of the artifact files a run wrote, in write order. -/
def writtenPaths (r : RunOut) : List String := r.writes.map Prod.fst

/-- How many times a run wrote the file at path `p`. -/
def writeCount (r : RunOut) (p : String) : Nat := (writtenPaths r).count p

/-- Recognises the browser-close call. -/
def isClose : Event → Bool
  | Event.close => true
  | _ => false

/-- How many times a run closed the browser. -/
def closeCount (r : RunOut) : Nat := (r.trace.filter isClose).length

/-- The lines a run printed to standard output, in order. -/
def prints (r : RunOut) : List String :=
  r.trace.filterMap fun ev =>
    match ev with
    | Event.print m => some m
    | _ => none

/-- An environment in which every automation call succeeds. -/
def envAllOk : Env :=
  ⟨none, none, none, none, none, none, none, none, none, none,
    "imgInitial", "imgOpen", "imgError"⟩

/-- An environment in which the trigger-visibility wait times out and every
other call succeeds. -/
def envTriggerTimeout : Env :=
  ⟨none, none, none, some "Timeout 10000ms exceeded", none, none, none, none,
    none, none, "imgInitial", "imgOpen", "imgError"⟩

/-- An environment in which the popover-visibility wait times out and every
other call succeeds. -/
def envPopoverTimeout : Env :=
  ⟨none, none, none, none, none, none, some "Timeout 2000ms exceeded", none,
    none, none, "imgInitial", "imgOpen", "imgError"⟩

/-- The `try` body never closes the browser: only the `finally` clause does. -/
theorem tryBody_no_close (env : Env) : (tryBody env).1.filter isClose = [] := by
  obtain ⟨l, np, g, tw, s1, c, pw, hv, s2, se, ci, co, ce⟩ := env
  cases g <;> cases tw <;> cases s1 <;> cases c <;> cases pw <;> cases hv <;>
    cases s2 <;> rfl

/-- C1: in a run where navigation, both visibility waits, the click, the
hover and both screenshots succeed, the script writes exactly the two success
artifacts and no error artifact, prints the completion message, and
terminates with success status. -/
theorem success_run_artifacts (env : Env)
    (hl : env.launch = none) (hn : env.newPage = none) (hg : env.goto = none)
    (ht : env.triggerWait = none) (hs1 : env.screenshotInitial = none)
    (hc : env.click = none) (hp : env.popoverWait = none) (hh : env.hover = none)
    (hs2 : env.screenshotOpen = none) :
    writeCount (verify_grid_controls env) initialPath = 1 ∧
    writeCount (verify_grid_controls env) openPath = 1 ∧
    writeCount (verify_grid_controls env) errorPath = 0 ∧
    "Verification script completed successfully." ∈ prints (verify_grid_controls env) ∧
    (verify_grid_controls env).result = Except.ok () := by
  have hrun : verify_grid_controls env =
      ⟨[Event.launch, Event.newPage, Event.print "Navigating to app...",
          Event.goto appUrl none, Event.print "Waiting for grid controls...",
          Event.locator triggerSel, Event.waitVisible triggerSel (some (10 * msPerUnit)),
          Event.print "Taking initial screenshot...", Event.screenshot initialPath none,
          Event.print "Opening grid selector...", Event.click triggerSel none,
          Event.locator popoverSel, Event.waitVisible popoverSel (some (2 * msPerUnit)),
          Event.print "Hovering over cell 2x2...", Event.locator cellSel,
          Event.hover cellSel none, Event.print "Taking open state screenshot...",
          Event.screenshot openPath none,
          Event.print "Verification script completed successfully.", Event.close],
        [(initialPath, env.contentInitial), (openPath, env.contentOpen)],
        Except.ok ()⟩ := by
    simp [verify_grid_controls, tryBody, hl, hn, hg, ht, hs1, hc, hp, hh, hs2]
  rw [hrun]
  refine ⟨rfl, rfl, rfl, ?_, rfl⟩
  simp [prints]

/-- Witness for `success_run_artifacts`, at the all-successful environment. -/
theorem success_run_artifacts_witness :
    envAllOk.launch = none ∧ envAllOk.newPage = none ∧ envAllOk.goto = none ∧
    envAllOk.triggerWait = none ∧ envAllOk.screenshotInitial = none ∧
    envAllOk.click = none ∧ envAllOk.popoverWait = none ∧ envAllOk.hover = none ∧
    envAllOk.screenshotOpen = none ∧
    (writeCount (verify_grid_controls envAllOk) initialPath = 1 ∧
      writeCount (verify_grid_controls envAllOk) openPath = 1 ∧
      writeCount (verify_grid_controls envAllOk) errorPath = 0 ∧
      "Verification script completed successfully." ∈ prints (verify_grid_controls envAllOk) ∧
      (verify_grid_controls envAllOk).result = Except.ok ()) :=
  ⟨rfl, rfl, rfl, rfl, rfl, rfl, rfl, rfl, rfl,
    success_run_artifacts envAllOk rfl rfl rfl rfl rfl rfl rfl rfl rfl⟩

/-- C2: in a run where the trigger-visibility wait times out (and the
diagnostic capture itself succeeds), the script writes no success artifact,
writes exactly one error artifact, and terminates with failure status. -/
theorem trigger_timeout_artifacts (env : Env) (e : String)
    (hl : env.launch = none) (hn : env.newPage = none) (hg : env.goto = none)
    (ht : env.triggerWait = some e) (hse : env.screenshotError = none) :
    writeCount (verify_grid_controls env) initialPath = 0 ∧
    writeCount (verify_grid_controls env) openPath = 0 ∧
    writeCount (verify_grid_controls env) errorPath = 1 ∧
    (verify_grid_controls env).result = Except.error e := by
  have hrun : verify_grid_controls env =
      ⟨[Event.launch, Event.newPage, Event.print "Navigating to app...",
          Event.goto appUrl none, Event.print "Waiting for grid controls...",
          Event.locator triggerSel, Event.waitVisible triggerSel (some (10 * msPerUnit)),
          Event.print ("Error during verification: " ++ e),
          Event.screenshot errorPath none, Event.close],
        [(errorPath, env.contentError)], Except.error e⟩ := by
    simp [verify_grid_controls, tryBody, hl, hn, hg, ht, hse]
  rw [hrun]
  exact ⟨rfl, rfl, rfl, rfl⟩

/-- Witness for `trigger_timeout_artifacts`. -/
theorem trigger_timeout_artifacts_witness :
    envTriggerTimeout.launch = none ∧ envTriggerTimeout.newPage = none ∧
    envTriggerTimeout.goto = none ∧
    envTriggerTimeout.triggerWait = some "Timeout 10000ms exceeded" ∧
    envTriggerTimeout.screenshotError = none ∧
    (writeCount (verify_grid_controls envTriggerTimeout) initialPath = 0 ∧
      writeCount (verify_grid_controls envTriggerTimeout) openPath = 0 ∧
      writeCount (verify_grid_controls envTriggerTimeout) errorPath = 1 ∧
      (verify_grid_controls envTriggerTimeout).result =
        Except.error "Timeout 10000ms exceeded") :=
  ⟨rfl, rfl, rfl, rfl, rfl,
    trigger_timeout_artifacts envTriggerTimeout "Timeout 10000ms exceeded"
      rfl rfl rfl rfl rfl⟩

/-- C3: in a run where the trigger becomes visible, the initial capture and
the click succeed, but the popover-visibility wait times out (and the
diagnostic capture itself succeeds), the script writes exactly one success
artifact (the initial capture) and exactly one error artifact, and terminates
with failure status. -/
theorem popover_timeout_artifacts (env : Env) (e : String)
    (hl : env.launch = none) (hn : env.newPage = none) (hg : env.goto = none)
    (ht : env.triggerWait = none) (hs1 : env.screenshotInitial = none)
    (hc : env.click = none) (hp : env.popoverWait = some e)
    (hse : env.screenshotError = none) :
    writeCount (verify_grid_controls env) initialPath = 1 ∧
    writeCount (verify_grid_controls env) openPath = 0 ∧
    writeCount (verify_grid_controls env) errorPath = 1 ∧
    (verify_grid_controls env).result = Except.error e := by
  have hrun : verify_grid_controls env =
      ⟨[Event.launch, Event.newPage, Event.print "Navigating to app...",
          Event.goto appUrl none, Event.print "Waiting for grid controls...",
          Event.locator triggerSel, Event.waitVisible triggerSel (some (10 * msPerUnit)),
          Event.print "Taking initial screenshot...", Event.screenshot initialPath none,
          Event.print "Opening grid selector...", Event.click triggerSel none,
          Event.locator popoverSel, Event.waitVisible popoverSel (some (2 * msPerUnit)),
          Event.print ("Error during verification: " ++ e),
          Event.screenshot errorPath none, Event.close],
        [(initialPath, env.contentInitial), (errorPath, env.contentError)],
        Except.error e⟩ := by
    simp [verify_grid_controls, tryBody, hl, hn, hg, ht, hs1, hc, hp, hse]
  rw [hrun]
  exact ⟨rfl, rfl, rfl, rfl⟩

/-- Witness for `popover_timeout_artifacts`. -/
theorem popover_timeout_artifacts_witness :
    envPopoverTimeout.launch = none ∧ envPopoverTimeout.newPage = none ∧
    envPopoverTimeout.goto = none ∧ envPopoverTimeout.triggerWait = none ∧
    envPopoverTimeout.screenshotInitial = none ∧ envPopoverTimeout.click = none ∧
    envPopoverTimeout.popoverWait = some "Timeout 2000ms exceeded" ∧
    envPopoverTimeout.screenshotError = none ∧
    (writeCount (verify_grid_controls envPopoverTimeout) initialPath = 1 ∧
      writeCount (verify_grid_controls envPopoverTimeout) openPath = 0 ∧
      writeCount (verify_grid_controls envPopoverTimeout) errorPath = 1 ∧
      (verify_grid_controls envPopoverTimeout).result =
        Except.error "Timeout 2000ms exceeded") :=
  ⟨rfl, rfl, rfl, rfl, rfl, rfl, rfl, rfl,
    popover_timeout_artifacts envPopoverTimeout "Timeout 2000ms exceeded"
      rfl rfl rfl rfl rfl rfl rfl rfl⟩

/-- Whenever the run reaches the `try` statement, its `finally` clause closes
the browser exactly once, on every exit path. -/
theorem closeCount_eq_one (env : Env)
    (hl : env.launch = none) (hn : env.newPage = none) :
    closeCount (verify_grid_controls env) = 1 := by
  have hb := tryBody_no_close env
  rcases hres : (tryBody env).2.2 with _ | e
  · simp [verify_grid_controls, closeCount, hl, hn, hres, List.filter_append, hb, isClose]
  · rcases hse : env.screenshotError with _ | e2 <;>
      simp [verify_grid_controls, closeCount, hl, hn, hres, hse,
        List.filter_append, hb, isClose]

/-- C4: whenever the run reaches the `try` statement (browser launch and page
creation succeeded, which covers the success path, every failing step in the
body, and the failing diagnostic capture), the browser is closed exactly
once. -/
theorem browser_closed_once (env : Env)
    (hl : env.launch = none) (hn : env.newPage = none) :
    closeCount (verify_grid_controls env) = 1 :=
  closeCount_eq_one env hl hn

/-- Witness for `browser_closed_once`, at an environment where navigation
fails and the diagnostic capture fails too. -/
theorem browser_closed_once_witness :
    (⟨none, none, some "net::ERR_CONNECTION_REFUSED", none, none, none, none,
        none, none, some "Target page, context or browser has been closed",
        "", "", ""⟩ : Env).launch = none ∧
    (⟨none, none, some "net::ERR_CONNECTION_REFUSED", none, none, none, none,
        none, none, some "Target page, context or browser has been closed",
        "", "", ""⟩ : Env).newPage = none ∧
    closeCount (verify_grid_controls
      ⟨none, none, some "net::ERR_CONNECTION_REFUSED", none, none, none, none,
        none, none, some "Target page, context or browser has been closed",
        "", "", ""⟩) = 1 :=
  ⟨rfl, rfl,
    browser_closed_once
      ⟨none, none, some "net::ERR_CONNECTION_REFUSED", none, none, none, none,
        none, none, some "Target page, context or browser has been closed",
        "", "", ""⟩ rfl rfl⟩

/-- The calls a run has made by the time the popover visibility wait is
issued (source lines 4-28). -/
def prePopoverTrace : List Event :=
  [Event.launch, Event.newPage, Event.print "Navigating to app...",
    Event.goto appUrl none, Event.print "Waiting for grid controls...",
    Event.locator triggerSel, Event.waitVisible triggerSel (some (10 * msPerUnit)),
    Event.print "Taking initial screenshot...", Event.screenshot initialPath none,
    Event.print "Opening grid selector...", Event.click triggerSel none,
    Event.locator popoverSel]

/-- C5: the grid-cell hover happens only in runs whose popover visibility
wait succeeded, and in every such trace the popover visibility wait strictly
precedes the grid-cell lookup, which strictly precedes the hover. -/
theorem hover_after_popover_visible (env : Env)
    (h : Event.hover cellSel none ∈ (verify_grid_controls env).trace) :
    env.popoverWait = none ∧ ∃ rest, (verify_grid_controls env).trace =
      prePopoverTrace ++ Event.waitVisible popoverSel (some (2 * msPerUnit)) ::
        Event.print "Hovering over cell 2x2..." :: Event.locator cellSel ::
        Event.hover cellSel none :: rest := by
  obtain ⟨l, np, g, tw, s1, c, pw, hv, s2, se, ci, co, ce⟩ := env
  cases l with
  | some e => exact absurd h (by simp [verify_grid_controls])
  | none =>
  cases np with
  | some e => exact absurd h (by simp [verify_grid_controls])
  | none =>
  cases g with
  | some e => cases se <;> exact absurd h (by simp [verify_grid_controls, tryBody])
  | none =>
  cases tw with
  | some e => cases se <;> exact absurd h (by simp [verify_grid_controls, tryBody])
  | none =>
  cases s1 with
  | some e => cases se <;> exact absurd h (by simp [verify_grid_controls, tryBody])
  | none =>
  cases c with
  | some e => cases se <;> exact absurd h (by simp [verify_grid_controls, tryBody])
  | none =>
  cases pw with
  | some e => cases se <;> exact absurd h (by simp [verify_grid_controls, tryBody])
  | none =>
  refine ⟨rfl, ?_⟩
  cases hv with
  | some e => cases se <;> exact ⟨_, rfl⟩
  | none =>
  cases s2 with
  | some e => cases se <;> exact ⟨_, rfl⟩
  | none => exact ⟨_, rfl⟩

/-- Witness for `hover_after_popover_visible`, at the all-successful
environment. -/
theorem hover_after_popover_visible_witness :
    Event.hover cellSel none ∈ (verify_grid_controls envAllOk).trace ∧
    (envAllOk.popoverWait = none ∧ ∃ rest, (verify_grid_controls envAllOk).trace =
      prePopoverTrace ++ Event.waitVisible popoverSel (some (2 * msPerUnit)) ::
        Event.print "Hovering over cell 2x2..." :: Event.locator cellSel ::
        Event.hover cellSel none :: rest) :=
  ⟨by decide, hover_after_popover_visible envAllOk (by decide)⟩

/-- The `try` body never writes the error artifact: only the `except` clause
does. -/
theorem tryBody_no_error_write (env : Env) :
    ((tryBody env).2.1.map Prod.fst).count errorPath = 0 := by
  obtain ⟨l, np, g, tw, s1, c, pw, hv, s2, se, ci, co, ce⟩ := env
  cases g <;> cases tw <;> cases s1 <;> cases c <;> cases pw <;> cases hv <;>
    cases s2 <;> rfl

/-- C6: when any call in the `try` body raises (any exception between
navigation and the second screenshot) and the diagnostic capture itself
succeeds, the run logs the error message, writes the diagnostic artifact to
the fixed error path exactly once, and re-raises the same exception so the
run terminates with failure status. -/
theorem body_error_logged_and_reraised (env : Env) (e : String)
    (hl : env.launch = none) (hn : env.newPage = none)
    (hfail : (tryBody env).2.2 = some e) (hse : env.screenshotError = none) :
    ("Error during verification: " ++ e) ∈ prints (verify_grid_controls env) ∧
    writeCount (verify_grid_controls env) errorPath = 1 ∧
    (verify_grid_controls env).result = Except.error e := by
  refine ⟨?_, ?_, ?_⟩
  · simp [verify_grid_controls, hl, hn, hfail, hse, prints]
  · have hw := tryBody_no_error_write env
    simp [verify_grid_controls, hl, hn, hfail, hse, writeCount, writtenPaths,
      List.count_append, hw]
  · simp [verify_grid_controls, hl, hn, hfail, hse]

/-- Witness for `body_error_logged_and_reraised`, at the popover-timeout
environment. -/
theorem body_error_logged_and_reraised_witness :
    envPopoverTimeout.launch = none ∧ envPopoverTimeout.newPage = none ∧
    (tryBody envPopoverTimeout).2.2 = some "Timeout 2000ms exceeded" ∧
    envPopoverTimeout.screenshotError = none ∧
    (("Error during verification: " ++ "Timeout 2000ms exceeded") ∈
        prints (verify_grid_controls envPopoverTimeout) ∧
      writeCount (verify_grid_controls envPopoverTimeout) errorPath = 1 ∧
      (verify_grid_controls envPopoverTimeout).result =
        Except.error "Timeout 2000ms exceeded") :=
  ⟨rfl, rfl, rfl, rfl,
    body_error_logged_and_reraised envPopoverTimeout "Timeout 2000ms exceeded"
      rfl rfl rfl rfl⟩

/-- The timeout discipline of the automation calls the script makes: the
trigger-visibility wait carries 10 time units, the popover-visibility wait
carries 2 time units, and navigation, click, hover and screenshot calls carry
no explicit timeout override. -/
def timeoutDiscipline : Event → Bool
  | Event.waitVisible sel t =>
      (sel == triggerSel && t == some (10 * msPerUnit)) ||
        (sel == popoverSel && t == some (2 * msPerUnit))
  | Event.goto _ t => t == none
  | Event.click _ t => t == none
  | Event.hover _ t => t == none
  | Event.screenshot _ t => t == none
  | _ => true

/-- Every call in every run respects the timeout discipline. -/
theorem timeoutDiscipline_all (env : Env) :
    (verify_grid_controls env).trace.all timeoutDiscipline = true := by
  obtain ⟨l, np, g, tw, s1, c, pw, hv, s2, se, ci, co, ce⟩ := env
  cases l <;> cases np <;> cases g <;> cases tw <;> cases s1 <;> cases c <;>
    cases pw <;> cases hv <;> cases s2 <;> cases se <;> rfl

/-- C7: in every run, every visibility wait the script issues is bounded by
10 time units (trigger) or 2 time units (popover), and every navigation,
click, hover and screenshot call carries no explicit timeout override. -/
theorem timeout_discipline_holds (env : Env) (ev : Event)
    (h : ev ∈ (verify_grid_controls env).trace) : timeoutDiscipline ev = true :=
  List.all_eq_true.mp (timeoutDiscipline_all env) ev h

/-- Witness for `timeout_discipline_holds`, at the trigger-visibility wait of
the all-successful run. -/
theorem timeout_discipline_holds_witness :
    Event.waitVisible triggerSel (some (10 * msPerUnit)) ∈
      (verify_grid_controls envAllOk).trace ∧
    timeoutDiscipline (Event.waitVisible triggerSel (some (10 * msPerUnit))) = true :=
  ⟨by decide, timeout_discipline_holds envAllOk _ (by decide)⟩

/-- A flat filesystem: each path maps to the contents of the file there, if
any. -/
def Fs : Type := String → Option String

/-- File semantics of the screenshot call: the capture is written to its
path, unconditionally replacing any prior file there (spec step 4). -/
def writeFile (fs : Fs) (p c : String) : Fs :=
  fun q => if q = p then some c else fs q

/-- Apply a list of writes to a filesystem, in order. -/
def applyWrites (fs : Fs) : List (String × String) → Fs
  | [] => fs
  | w :: ws => applyWrites (writeFile fs w.1 w.2) ws

/-- A path no write targets keeps its prior contents. -/
theorem applyWrites_not_written (ws : List (String × String)) (fs : Fs)
    (p : String) (h : p ∉ ws.map Prod.fst) : applyWrites fs ws p = fs p := by
  induction ws generalizing fs with
  | nil => rfl
  | cons w ws ih =>
    simp only [List.map_cons, List.mem_cons, not_or] at h
    simp only [applyWrites]
    rw [ih _ h.2]
    simp [writeFile, h.1]

/-- The contents at a written path do not depend on the prior filesystem. -/
theorem applyWrites_indep (ws : List (String × String)) (fs1 fs2 : Fs)
    (p : String) (h : p ∈ ws.map Prod.fst) :
    applyWrites fs1 ws p = applyWrites fs2 ws p := by
  induction ws generalizing fs1 fs2 with
  | nil => exact absurd h (by simp)
  | cons w ws ih =>
    by_cases hp : p ∈ ws.map Prod.fst
    · simp only [applyWrites]
      exact ih _ _ hp
    · have hw : p = w.1 := by
        simp only [List.map_cons, List.mem_cons] at h
        tauto
      simp only [applyWrites]
      rw [applyWrites_not_written ws _ p hp, applyWrites_not_written ws _ p hp]
      simp [writeFile, hw]

/-- C8: every artifact path a run writes is overwritten unconditionally, so
replaying the same run over any two prior filesystems (in particular over an
empty filesystem and over the filesystem a previous identical run left
behind) yields the same contents at that path: the final contents depend only
on the most recent run. -/
theorem artifact_overwrite_last_run_wins (env : Env) (fs1 fs2 : Fs)
    (p : String) (h : p ∈ writtenPaths (verify_grid_controls env)) :
    applyWrites fs1 (verify_grid_controls env).writes p =
      applyWrites fs2 (verify_grid_controls env).writes p :=
  applyWrites_indep _ fs1 fs2 p h

/-- Witness for `artifact_overwrite_last_run_wins`: running twice from an
empty filesystem leaves the initial-capture file exactly as one run does. -/
theorem artifact_overwrite_last_run_wins_witness :
    initialPath ∈ writtenPaths (verify_grid_controls envAllOk) ∧
    applyWrites
        (applyWrites ((fun _ => none) : Fs) (verify_grid_controls envAllOk).writes)
        (verify_grid_controls envAllOk).writes initialPath =
      applyWrites ((fun _ => none) : Fs) (verify_grid_controls envAllOk).writes
        initialPath :=
  ⟨by decide,
    artifact_overwrite_last_run_wins envAllOk _ _ initialPath (by decide)⟩

/-- An environment in which browser launch fails. -/
def envLaunchFail : Env :=
  ⟨some "launch failed", none, none, none, none, none, none, none, none, none,
    "", "", ""⟩

/-- C9: when browser launch or page creation fails, the exception propagates
with no artifact written and nothing printed (in particular no diagnostic
capture and no error log line), because those calls run before the `try`
statement. -/
theorem acquisition_failure_no_diagnostic (env : Env) (e : String)
    (hfail : env.launch = some e ∨ (env.launch = none ∧ env.newPage = some e)) :
    (verify_grid_controls env).writes = [] ∧
    prints (verify_grid_controls env) = [] ∧
    (verify_grid_controls env).result = Except.error e := by
  rcases hfail with h | ⟨h1, h2⟩
  · simp [verify_grid_controls, h, prints]
  · simp [verify_grid_controls, h1, h2, prints]

/-- Witness for `acquisition_failure_no_diagnostic`, at a failing launch. -/
theorem acquisition_failure_no_diagnostic_witness :
    (envLaunchFail.launch = some "launch failed" ∨
      (envLaunchFail.launch = none ∧ envLaunchFail.newPage = some "launch failed")) ∧
    ((verify_grid_controls envLaunchFail).writes = [] ∧
      prints (verify_grid_controls envLaunchFail) = [] ∧
      (verify_grid_controls envLaunchFail).result = Except.error "launch failed") :=
  ⟨Or.inl rfl,
    acquisition_failure_no_diagnostic envLaunchFail "launch failed" (Or.inl rfl)⟩

/-- An environment in which navigation fails and the diagnostic capture fails
too. -/
def envDiagFail : Env :=
  ⟨none, none, some "nav failed", none, none, none, none, none, none,
    some "screenshot failed", "", "", ""⟩

/-- C10: when a call in the `try` body raises `e` and the best-effort
diagnostic capture in the handler itself raises `e2`, the exception that
propagates is `e2` — the original error is lost — while the browser is still
closed exactly once. -/
theorem diagnostic_failure_masks_original (env : Env) (e e2 : String)
    (hl : env.launch = none) (hn : env.newPage = none)
    (hfail : (tryBody env).2.2 = some e) (hse : env.screenshotError = some e2)
    (hne : e ≠ e2) :
    (verify_grid_controls env).result = Except.error e2 ∧
    (verify_grid_controls env).result ≠ Except.error e ∧
    closeCount (verify_grid_controls env) = 1 := by
  have hres : (verify_grid_controls env).result = Except.error e2 := by
    simp [verify_grid_controls, hl, hn, hfail, hse]
  refine ⟨hres, ?_, closeCount_eq_one env hl hn⟩
  rw [hres]
  intro hEq
  injection hEq with hMsg
  exact hne hMsg.symm

/-- Witness for `diagnostic_failure_masks_original`. -/
theorem diagnostic_failure_masks_original_witness :
    envDiagFail.launch = none ∧ envDiagFail.newPage = none ∧
    (tryBody envDiagFail).2.2 = some "nav failed" ∧
    envDiagFail.screenshotError = some "screenshot failed" ∧
    "nav failed" ≠ "screenshot failed" ∧
    ((verify_grid_controls envDiagFail).result = Except.error "screenshot failed" ∧
      (verify_grid_controls envDiagFail).result ≠ Except.error "nav failed" ∧
      closeCount (verify_grid_controls envDiagFail) = 1) :=
  ⟨rfl, rfl, rfl, rfl, by decide,
    diagnostic_failure_masks_original envDiagFail "nav failed" "screenshot failed"
      rfl rfl rfl rfl (by decide)⟩

end VerifyGridControls
